import Mathlib

/-!
Shallow embedding of `backup.py` (harvard-lil/db-backup), a single linear
script that backs up an Amazon RDS instance: resolve (or create) a snapshot,
restore it into a throwaway instance, dump the database with
mysqldump/xz or pg_dump, then delete the throwaway instance (and the
on-demand snapshot, when one was created).

The script is straight-line Python: every external call either returns a
value supplied here by an `Env` (the world's responses) or raises, in which
case the process aborts at that point.  The embedding threads an explicit
trace of the externally visible operations (`Action`) and an abort status
(`Err`).  Return codes of the dump subprocesses are part of `Env` but are
never read by `run`, mirroring the source: the value of `subprocess.call`
on line 174 is bound to `compress` and never used again, the result of
`mysqldump.wait()` on line 178 is discarded, and `returncode` on line 192
is never used.

String primitives (prefix test, lexicographic comparison, digit parsing)
are implemented over `String.data` by structural recursion so that every
definition evaluates on concrete inputs by kernel reduction; they compute
the same functions as Python's `str.startswith`, string `<`/`max`, and the
numeric-field part of `strptime`.
-/

set_option maxRecDepth 100000

namespace DbBackup

/-- Command-line arguments of `backup.py` (lines 49-63).  `snapshot` is the
`--snapshot` flag selecting create-fresh mode. -/
structure Args where
  instanceName : String
  database : String
  securitygroup : String
  billableto : String
  snapshot : Bool
deriving DecidableEq, Repr

/-- A naive wall-clock datetime, standing for Python's `datetime`. -/
structure DateTime where
  year : Nat
  month : Nat
  day : Nat
  hour : Nat
  minute : Nat
  second : Nat
deriving DecidableEq, Repr

/-- Zero-pad to two digits, as `strftime` does for `%m`/`%d`/`%H`/`%M`/`%S`. -/
def pad2 (n : Nat) : String :=
  if n < 10 then "0" ++ toString n else toString n

/-- Zero-pad to four digits, as `strftime` does for `%Y`. -/
def pad4 (n : Nat) : String :=
  if n < 10 then "000" ++ toString n
  else if n < 100 then "00" ++ toString n
  else if n < 1000 then "0" ++ toString n
  else toString n

/-- `strftime('%Y%m%d%H%M%S')` (lines 75 and 109). -/
def strftimeCompact (t : DateTime) : String :=
  pad4 t.year ++ pad2 t.month ++ pad2 t.day ++ pad2 t.hour ++ pad2 t.minute
    ++ pad2 t.second

/-- Python string `s.startswith(t)` (line 101): `t.data` is a prefix of
`s.data`. -/
def startsWithB (s pre : String) : Bool :=
  pre.data.isPrefixOf s.data

/-- Lexicographic strict comparison of code-point sequences: Python's `<` on
`str`, which is what `max` on a list of strings compares by. -/
def listLtB : List Char → List Char → Bool
  | [], [] => false
  | [], _ :: _ => true
  | _ :: _, [] => false
  | a :: as, b :: bs =>
    if a.toNat < b.toNat then true
    else if b.toNat < a.toNat then false
    else listLtB as bs

/-- Python `a < b` on strings. -/
def strLtB (a b : String) : Bool :=
  listLtB a.data b.data

/-- Python `max(l)` on a list of strings: `none` models the `ValueError`
raised on an empty sequence; otherwise fold keeping the current maximum,
replacing it only when a later item compares strictly greater. -/
def maxPy : List String → Option String
  | [] => none
  | s :: rest => some (rest.foldl (fun m x => if strLtB m x then x else m) s)

/-- Lines 100-101: among the snapshot identifiers returned by
`describe_db_snapshots`, keep those starting with `rds:{instance}` and take
the lexicographic maximum. -/
def selectLatest (instanceName : String) (snaps : List String) : Option String :=
  maxPy (snaps.filter (fun s => startsWithB s ("rds:" ++ instanceName)))

/-- Numeric value of a non-empty run of decimal digits; `none` on a character
outside `0`-`9`. -/
def digitsValAux : List Char → Nat → Option Nat
  | [], acc => some acc
  | c :: cs, acc =>
    if 48 ≤ c.toNat ∧ c.toNat ≤ 57 then
      digitsValAux cs (acc * 10 + (c.toNat - 48))
    else none

/-- Numeric value of a digit string, `none` when empty or non-numeric. -/
def digitsVal (cs : List Char) : Option Nat :=
  match cs with
  | [] => none
  | _ :: _ => digitsValAux cs 0

/-- Split a character list on `-`. -/
def splitOnDashAux : List Char → List Char → List (List Char)
  | [], acc => [acc.reverse]
  | c :: cs, acc =>
    if c = '-' then acc.reverse :: splitOnDashAux cs []
    else splitOnDashAux cs (c :: acc)

/-- Split on `-`, as Python's `str.split('-')`. -/
def splitOnDash (cs : List Char) : List (List Char) :=
  splitOnDashAux cs []

/-- `datetime.strptime(latest, "rds:{0}-%Y-%m-%d-%H-%M".format(args.instance))`
(lines 103-104): require the literal `rds:{instance}-` part, then read five
dash-separated numeric fields (year, month, day, hour, minute); the seconds
field, absent from the pattern, defaults to zero.  `none` models the
`ValueError` Python raises when the identifier does not match the pattern. -/
def parseSnaptime (instanceName ident : String) : Option DateTime :=
  let pat := "rds:" ++ instanceName ++ "-"
  if pat.data.isPrefixOf ident.data then
    match splitOnDash (ident.data.drop pat.data.length) with
    | [y, mo, d, h, mi] =>
      match digitsVal y, digitsVal mo, digitsVal d, digitsVal h, digitsVal mi with
      | some yn, some mon, some dn, some hn, some minn =>
        some ⟨yn, mon, dn, hn, minn, 0⟩
      | _, _, _, _, _ => none
    | _ => none
  else none

/-- Line 106-109: the derived identifier of the restored instance. -/
def dbInstanceIdentifier (instanceName : String) (backupTime snaptime : DateTime) :
    String :=
  instanceName ++ "-" ++ strftimeCompact backupTime ++ "-fromsnap-"
    ++ strftimeCompact snaptime

/-- `os.O_WRONLY` (Linux). -/
def O_WRONLY : Nat := 1
/-- `os.O_CREAT` (Linux). -/
def O_CREAT : Nat := 64
/-- `os.O_EXCL` (Linux). -/
def O_EXCL : Nat := 128
/-- `stat.S_IRUSR` = 0o400. -/
def S_IRUSR : Nat := 256
/-- `stat.S_IWUSR` = 0o200. -/
def S_IWUSR : Nat := 128

/-- The instance descriptor fetched on lines 129-134 (`Engine`,
`Endpoint.Address`, `Endpoint.Port`, `MasterUsername`). -/
structure InstanceInfo where
  engine : String
  address : String
  port : Nat
  masterUsername : String
deriving DecidableEq, Repr

/-- The responses of the outside world consumed by one run: the snapshot
listing, the restored instance's descriptor, the filesystem state at
`os.open(..., O_EXCL)` time, the parent process environment, the working
directory, and the exit statuses the subprocesses will report. -/
structure Env where
  snapshots : List String
  info : InstanceInfo
  fileExists : String → Bool
  environ : List (String × String)
  cwd : String
  mysqldumpExit : Int
  xzExit : Int
  pgExit : Int

/-- Externally visible operations, in program order. -/
inductive Action where
  | createDbSnapshot (snapId dbId billableto : String)
  | waitSnapshotCompleted (snapId : String)
  | describeDbSnapshots (dbId snapshotType : String)
  | restoreDbInstanceFromDbSnapshot (dbId snapId billableto : String)
      (copyTagsToSnapshot : Bool)
  | waitDbInstanceAvailable (dbId : String)
  | describeDbInstances (dbId : String)
  | modifyDbInstance (dbId securitygroup : String)
  | makedirs (path : String)
  | openFile (path : String) (flags mode : Nat)
  | popenMysqldump (argv : List String)
  | callXz (argv : List String) (stdoutPath : String)
  | waitMysqldump
  | callPgDump (argv : List String) (env : List (String × String))
  | deleteDbInstance (dbId : String) (skipFinalSnapshot : Bool)
  | deleteDbSnapshot (snapId : String)
deriving DecidableEq, Repr

/-- Uncaught Python exceptions the modelled calls can raise. -/
inductive Err where
  /-- `ValueError: max() arg is an empty sequence` from line 100. -/
  | valueErrorMaxEmpty
  /-- `ValueError` from `strptime` on lines 103-104. -/
  | valueErrorStrptime
  /-- `FileExistsError` from `os.open(..., O_EXCL)` (line 155 or 188). -/
  | fileExistsError (path : String)
deriving DecidableEq, Repr

/-- Outcome of one process run: the trace of external operations performed,
the uncaught exception that terminated the process (`none` = the script
reached its final line), and the parent process's own environment at exit. -/
structure RunResult where
  trace : List Action
  error : Option Err
  environ : List (String × String)
deriving DecidableEq, Repr

/-- `d[k] = v` on a Python dict, represented as an association list with
unique keys in insertion order: replace the binding in place if the key is
present, else append it at the end (Python dicts preserve insertion order
and assignment to an existing key keeps its position). -/
def envUpsert : List (String × String) → String → String →
    List (String × String)
  | [], k, v => [(k, v)]
  | p :: rest, k, v =>
    if p.1 = k then (k, v) :: rest else p :: envUpsert rest k v

/-- `d[k]` on the same representation. -/
def envLookup : List (String × String) → String → Option String
  | [], _ => none
  | p :: rest, k => if p.1 = k then some p.2 else envLookup rest k

/-- Lines 77-104: obtain the snapshot to restore from.  Create-fresh mode
(`--snapshot`) names, creates and awaits a snapshot; select-latest mode lists
automated snapshots, takes the maximum matching identifier and parses its
timestamp.  Returns the actions performed and either `(latest, snaptime)` or
the aborting exception. -/
def resolveSnapshot (args : Args) (world : Env) (backupTime : DateTime)
    (backupTimestamp : String) :
    List Action × Except Err (String × DateTime) :=
  if args.snapshot then
    let snapshotIdentifier := "dbb-" ++ args.instanceName ++ "-" ++ backupTimestamp
    ([.createDbSnapshot snapshotIdentifier args.instanceName args.billableto,
      .waitSnapshotCompleted snapshotIdentifier],
     .ok (snapshotIdentifier, backupTime))
  else
    let acts := [Action.describeDbSnapshots args.instanceName "automated"]
    match selectLatest args.instanceName world.snapshots with
    | none => (acts, .error .valueErrorMaxEmpty)
    | some latest =>
      match parseSnaptime args.instanceName latest with
      | none => (acts, .error .valueErrorStrptime)
      | some snaptime => (acts, .ok (latest, snaptime))

/-- Lines 148-204: the engine dispatch.  `flags`/`mode` are lines 148-149.
On the mysql path the destination `{cwd}/{instance}/{db_instance}.sql.xz` is
opened exclusively, mysqldump is started with its stdout piped into
`xz --stdout -` whose stdout is the open file, and both processes are awaited
with their exit statuses discarded (lines 174-178).  On the postgres path the
destination `{cwd}/{instance}/{db_instance}.dump` is pre-created exclusively
and closed, then pg_dump runs with a copy of the environment extended with
`PGPASSFILE` (lines 190-204).  Any other engine string falls through both
branches: no action, no error.  File closes (the `with` block, `os.close`)
have no externally visible effect and are not recorded. -/
def dumpStage (args : Args) (world : Env) (dbInstance : String)
    (info : InstanceInfo) : List Action × Except Err Unit :=
  let flags := O_WRONLY ||| O_CREAT ||| O_EXCL
  let mode := S_IRUSR ||| S_IWUSR
  if info.engine = "mysql" then
    let mycnf := world.cwd ++ "/." ++ args.instanceName ++ ".my.cnf"
    let path := world.cwd ++ "/" ++ args.instanceName ++ "/" ++ dbInstance
      ++ ".sql.xz"
    if world.fileExists path then
      ([], .error (.fileExistsError path))
    else
      ([.openFile path flags mode,
        .popenMysqldump ["mysqldump", "--defaults-extra-file=" ++ mycnf,
          "--single-transaction", "--databases", args.database, "-h",
          info.address, "-u", info.masterUsername, "-P", toString info.port],
        .callXz ["xz", "--stdout", "-"] path,
        .waitMysqldump],
       .ok ())
  else if info.engine = "postgres" then
    let pgpass := world.cwd ++ "/." ++ args.instanceName ++ ".pgpass"
    let dumpfile := world.cwd ++ "/" ++ args.instanceName ++ "/" ++ dbInstance
      ++ ".dump"
    if world.fileExists dumpfile then
      ([], .error (.fileExistsError dumpfile))
    else
      let d := envUpsert world.environ "PGPASSFILE" pgpass
      ([.openFile dumpfile flags mode,
        .callPgDump ["pg_dump", "-Fc", args.database, "-h", info.address,
          "-p", toString info.port, "-U", info.masterUsername, "-w", "-f",
          dumpfile] d],
       .ok ())
  else ([], .ok ())

/-- Lines 112-146: the provisioning block between snapshot resolution and the
dump — restore request with tag propagation, availability wait, descriptor
fetch, security-group replacement, and lazy output-directory creation. -/
def provisionActs (args : Args) (world : Env) (dbInstance latest : String) :
    List Action :=
  [.restoreDbInstanceFromDbSnapshot dbInstance latest args.billableto true,
   .waitDbInstanceAvailable dbInstance,
   .describeDbInstances dbInstance,
   .modifyDbInstance dbInstance args.securitygroup,
   .makedirs (world.cwd ++ "/" ++ args.instanceName)]

/-- The whole script, lines 70-219.  Control flow is linear; an uncaught
exception stops the run at that point with everything performed so far in the
trace.  `os.makedirs` tolerating a pre-existing directory (lines 141-146,
`errno.EEXIST` caught and ignored) makes no observable difference here.
After the dump the instance is deleted with `SkipFinalSnapshot=True`
(lines 206-210) and, in create-fresh mode only, the snapshot
`snapshot_identifier` of line 78 is deleted (lines 214-217).  The parent
environment is never assigned to by the script, so it is returned unchanged;
the pg_dump override acts on a copy (`d = dict(os.environ)`, line 190). -/
def run (args : Args) (world : Env) (backupTime : DateTime) : RunResult :=
  let backupTimestamp := strftimeCompact backupTime
  match resolveSnapshot args world backupTime backupTimestamp with
  | (acts, .error e) => ⟨acts, some e, world.environ⟩
  | (acts, .ok (latest, snaptime)) =>
    let dbInstance := dbInstanceIdentifier args.instanceName backupTime snaptime
    let acts := acts ++ provisionActs args world dbInstance latest
    match dumpStage args world dbInstance world.info with
    | (dacts, .error e) => ⟨acts ++ dacts, some e, world.environ⟩
    | (dacts, .ok ()) =>
      let acts := acts ++ dacts ++ [.deleteDbInstance dbInstance true]
      let acts := if args.snapshot then
          acts ++ [.deleteDbSnapshot
            ("dbb-" ++ args.instanceName ++ "-" ++ backupTimestamp)]
        else acts
      ⟨acts, none, world.environ⟩

/-- Is this action the deletion of a database instance (`delete_db_instance`)? -/
def isDeleteInstance : Action → Bool
  | .deleteDbInstance _ _ => true
  | _ => false

/-- Is this action the deletion of a snapshot (`delete_db_snapshot`)? -/
def isDeleteSnapshot : Action → Bool
  | .deleteDbSnapshot _ => true
  | _ => false

/-- Is this action any deletion of a cloud resource? -/
def isDeletion (a : Action) : Bool :=
  isDeleteInstance a || isDeleteSnapshot a

/-- Is this action part of the dump stage (file creation or a dump/compress
subprocess)? -/
def isDumpAction : Action → Bool
  | .openFile _ _ _ => true
  | .popenMysqldump _ => true
  | .callXz _ _ => true
  | .waitMysqldump => true
  | .callPgDump _ _ => true
  | _ => false

/-- Is this action the restore request (`restore_db_instance_from_db_snapshot`)? -/
def isRestore : Action → Bool
  | .restoreDbInstanceFromDbSnapshot _ _ _ _ => true
  | _ => false

/-- A sample select-latest invocation (`orders-db` from the spec scenarios). -/
def argsSel : Args :=
  ⟨"orders-db", "orders", "sg-1", "lil", false⟩

/-- The same invocation in create-fresh (`--snapshot`) mode. -/
def argsSnap : Args :=
  ⟨"orders-db", "orders", "sg-1", "lil", true⟩

/-- A sample run-start time. -/
def t0 : DateTime := ⟨2026, 10, 12, 3, 4, 5⟩

/-- A world answering with two automated snapshots of `orders-db`, a
mysql-engine restored instance, and no pre-existing artifact file. -/
def envMysql : Env :=
  ⟨["rds:orders-db-2024-01-01-00-00", "rds:orders-db-2024-01-02-00-00"],
   ⟨"mysql", "h.example", 3306, "admin"⟩, fun _ => false, [("PATH", "/bin")],
   "/work", 0, 0, 0⟩

/-- As `envMysql` but the artifact file already exists at every path. -/
def envMysqlFileExists : Env :=
  { envMysql with fileExists := fun _ => true }

/-- As `envMysql` but both dump-stage subprocesses report exit status 1. -/
def envMysqlBadExits : Env :=
  { envMysql with mysqldumpExit := 1, xzExit := 1 }

/-- As `envMysql` but the restored instance reports a postgres engine. -/
def envPg : Env :=
  { envMysql with info := ⟨"postgres", "h.example", 5432, "admin"⟩ }

/-- As `envMysql` but the restored instance reports engine `mariadb`,
matching neither dump branch. -/
def envMaria : Env :=
  { envMysql with info := ⟨"mariadb", "h.example", 3306, "admin"⟩ }

/-- A world whose automated snapshots all belong to other instances: the
filtered set for `orders-db` is empty. -/
def envNoMatch : Env :=
  { envMysql with snapshots := ["rds:payments-db-2024-01-01-00-00"] }

theorem charToNat_inj {a b : Char} (h : a.toNat = b.toNat) : a = b :=
  Char.ext (UInt32.toNat.inj h)

theorem listLtB_trans {a : List Char} : ∀ {b c : List Char},
    listLtB a b = true → listLtB b c = true → listLtB a c = true := by
  induction a with
  | nil =>
    intro b c h1 h2
    cases b with
    | nil => exact h2
    | cons y ys => cases c with
      | nil => simp [listLtB] at h2
      | cons z zs => rfl
  | cons x xs ih =>
    intro b c h1 h2
    cases b with
    | nil => simp [listLtB] at h1
    | cons y ys =>
      cases c with
      | nil => simp [listLtB] at h2
      | cons z zs =>
        simp only [listLtB] at h1 h2 ⊢
        by_cases hxy : x.toNat < y.toNat
        · by_cases hyz : y.toNat < z.toNat
          · simp [show x.toNat < z.toNat by omega]
          · by_cases hzy : z.toNat < y.toNat
            · simp [hyz, hzy] at h2
            · simp [show x.toNat < z.toNat by omega]
        · by_cases hyx : y.toNat < x.toNat
          · simp [hxy, hyx] at h1
          · by_cases hyz : y.toNat < z.toNat
            · simp [show x.toNat < z.toNat by omega]
            · by_cases hzy : z.toNat < y.toNat
              · simp [hyz, hzy] at h2
              · have hxz : ¬ x.toNat < z.toNat := by omega
                have hzx : ¬ z.toNat < x.toNat := by omega
                simp only [hxy, hyx, if_false, if_neg hxy, if_neg hyx] at h1
                simp only [if_neg hyz, if_neg hzy] at h2
                simp [if_neg hxz, if_neg hzx, ih h1 h2]

theorem listLtB_trichotomy : ∀ (a b : List Char),
    a = b ∨ listLtB a b = true ∨ listLtB b a = true := by
  intro a
  induction a with
  | nil =>
    intro b
    cases b with
    | nil => exact Or.inl rfl
    | cons y ys => exact Or.inr (Or.inl rfl)
  | cons x xs ih =>
    intro b
    cases b with
    | nil => exact Or.inr (Or.inr rfl)
    | cons y ys =>
      rcases Nat.lt_trichotomy x.toNat y.toNat with h | h | h
      · exact Or.inr (Or.inl (by simp [listLtB, h]))
      · have hx : x = y := charToNat_inj h
        subst hx
        rcases ih ys with h2 | h2 | h2
        · exact Or.inl (by rw [h2])
        · exact Or.inr (Or.inl (by simp [listLtB, h2]))
        · exact Or.inr (Or.inr (by simp [listLtB, h2]))
      · exact Or.inr (Or.inr (by simp [listLtB, h]))

theorem strLtB_trans {a b c : String} (h1 : strLtB a b = true)
    (h2 : strLtB b c = true) : strLtB a c = true :=
  listLtB_trans h1 h2

theorem strLtB_trichotomy (a b : String) :
    a = b ∨ strLtB a b = true ∨ strLtB b a = true := by
  rcases listLtB_trichotomy a.data b.data with h | h | h
  · exact Or.inl (congrArg String.mk h)
  · exact Or.inr (Or.inl h)
  · exact Or.inr (Or.inr h)

theorem foldlMax_mem : ∀ (l : List String) (s : String),
    l.foldl (fun m x => if strLtB m x then x else m) s ∈ s :: l := by
  intro l
  induction l with
  | nil => intro s; simp
  | cons y l ih =>
    intro s
    simp only [List.foldl_cons]
    by_cases hsy : strLtB s y = true
    · rw [if_pos hsy]
      exact List.mem_cons_of_mem s (ih y)
    · rw [if_neg hsy]
      rcases List.mem_cons.mp (ih s) with h | h
      · rw [h]; exact List.mem_cons_self s (y :: l)
      · exact List.mem_cons_of_mem s (List.mem_cons_of_mem y h)

theorem foldlMax_ub : ∀ (l : List String) (s x : String), x ∈ s :: l →
    x = l.foldl (fun m x => if strLtB m x then x else m) s ∨
    strLtB x (l.foldl (fun m x => if strLtB m x then x else m) s) = true := by
  intro l
  induction l with
  | nil =>
    intro s x hx
    exact Or.inl (by simpa using hx)
  | cons y l ih =>
    intro s x hx
    simp only [List.foldl_cons]
    by_cases hsy : strLtB s y = true
    · rw [if_pos hsy]
      rcases List.mem_cons.mp hx with heq | hx'
      · rw [heq]
        rcases ih y y (List.mem_cons_self y l) with h | h
        · exact Or.inr (h ▸ hsy)
        · exact Or.inr (strLtB_trans hsy h)
      · exact ih y x hx'
    · rw [if_neg hsy]
      rcases List.mem_cons.mp hx with heq | hx'
      · rw [heq]; exact ih s s (List.mem_cons_self s l)
      · rcases List.mem_cons.mp hx' with heq | hx''
        · rcases strLtB_trichotomy x s with heq2 | hlt | hgt
          · rw [heq2]; exact ih s s (List.mem_cons_self s l)
          · rcases ih s s (List.mem_cons_self s l) with h | h
            · exact Or.inr (h ▸ hlt)
            · exact Or.inr (strLtB_trans hlt h)
          · rw [heq] at hgt; exact absurd hgt (by simpa using hsy)
        · exact ih s x (List.mem_cons_of_mem s hx'')

theorem maxPy_spec {l : List String} (hne : l ≠ []) :
    ∃ m, maxPy l = some m ∧ m ∈ l ∧ ∀ x ∈ l, x = m ∨ strLtB x m = true := by
  cases l with
  | nil => exact absurd rfl hne
  | cons s rest =>
    exact ⟨_, rfl, foldlMax_mem rest s, fun x hx => foldlMax_ub rest s x hx⟩

theorem envLookup_envUpsert (l : List (String × String)) (k v : String) :
    envLookup (envUpsert l k v) k = some v := by
  induction l with
  | nil => simp [envUpsert, envLookup]
  | cons p rest ih =>
    by_cases h : p.1 = k
    · simp [envUpsert, envLookup, h]
    · simp [envUpsert, envLookup, h, ih]

theorem run_res_err {args : Args} {world : Env} {t : DateTime}
    {racts : List Action} {e : Err}
    (hres : resolveSnapshot args world t (strftimeCompact t) = (racts, .error e)) :
    run args world t = ⟨racts, some e, world.environ⟩ := by
  simp [run, hres]

theorem run_dump_err {args : Args} {world : Env} {t : DateTime}
    {racts : List Action} {latest : String} {snaptime : DateTime}
    {dacts : List Action} {e : Err}
    (hres : resolveSnapshot args world t (strftimeCompact t) =
      (racts, .ok (latest, snaptime)))
    (hdump : dumpStage args world
      (dbInstanceIdentifier args.instanceName t snaptime) world.info =
      (dacts, .error e)) :
    run args world t =
      ⟨racts ++ provisionActs args world
          (dbInstanceIdentifier args.instanceName t snaptime) latest ++ dacts,
       some e, world.environ⟩ := by
  simp [run, hres, hdump]

theorem run_ok {args : Args} {world : Env} {t : DateTime}
    {racts : List Action} {latest : String} {snaptime : DateTime}
    {dacts : List Action}
    (hres : resolveSnapshot args world t (strftimeCompact t) =
      (racts, .ok (latest, snaptime)))
    (hdump : dumpStage args world
      (dbInstanceIdentifier args.instanceName t snaptime) world.info =
      (dacts, .ok ())) :
    run args world t =
      ⟨racts ++ provisionActs args world
          (dbInstanceIdentifier args.instanceName t snaptime) latest ++ dacts ++
        [.deleteDbInstance (dbInstanceIdentifier args.instanceName t snaptime) true] ++
        (if args.snapshot then
          [.deleteDbSnapshot ("dbb-" ++ args.instanceName ++ "-" ++ strftimeCompact t)]
         else []),
       none, world.environ⟩ := by
  by_cases hs : args.snapshot <;> simp [run, hres, hdump, hs]

theorem resolveSnapshot_acts (args : Args) (world : Env) (t : DateTime)
    (bts : String) :
    (resolveSnapshot args world t bts).1 =
      [.createDbSnapshot ("dbb-" ++ args.instanceName ++ "-" ++ bts)
        args.instanceName args.billableto,
       .waitSnapshotCompleted ("dbb-" ++ args.instanceName ++ "-" ++ bts)] ∨
    (resolveSnapshot args world t bts).1 =
      [.describeDbSnapshots args.instanceName "automated"] := by
  unfold resolveSnapshot
  by_cases hs : args.snapshot
  · left; simp [hs]
  · right
    simp only [hs, Bool.false_eq_true, if_false]
    cases hsel : selectLatest args.instanceName world.snapshots with
    | none => rfl
    | some latest =>
      cases hp : parseSnaptime args.instanceName latest <;> simp [hp]

theorem resolveSnapshot_acts_benign (args : Args) (world : Env) (t : DateTime)
    (bts : String) :
    ∀ a ∈ (resolveSnapshot args world t bts).1,
      isDeletion a = false ∧ isDumpAction a = false := by
  intro a ha
  rcases resolveSnapshot_acts args world t bts with h | h <;> rw [h] at ha
  · rcases List.mem_cons.mp ha with rfl | ha'
    · exact ⟨rfl, rfl⟩
    · rcases List.mem_cons.mp ha' with rfl | ha''
      · exact ⟨rfl, rfl⟩
      · simp at ha''
  · rcases List.mem_cons.mp ha with rfl | ha'
    · exact ⟨rfl, rfl⟩
    · simp at ha'

theorem dumpStage_acts_benign (args : Args) (world : Env) (dbi : String)
    (info : InstanceInfo) :
    ∀ a ∈ (dumpStage args world dbi info).1, isDeletion a = false := by
  intro a ha
  simp only [dumpStage] at ha
  split at ha
  · split at ha
    · simp at ha
    · fin_cases ha <;> rfl
  · split at ha
    · split at ha
      · simp at ha
      · fin_cases ha <;> rfl
    · simp at ha

theorem provisionActs_benign (args : Args) (world : Env) (dbi latest : String) :
    ∀ a ∈ provisionActs args world dbi latest,
      isDeletion a = false ∧ isDumpAction a = false := by
  intro a ha
  fin_cases ha <;> exact ⟨rfl, rfl⟩

theorem pad2_length {n : Nat} (h : n ≤ 99) : (pad2 n).length = 2 := by
  have key : ∀ m, m < 100 → (pad2 m).length = 2 := by decide
  exact key n (by omega)

theorem pad4_length_small : ∀ m, m < 1000 → (pad4 m).length = 4 := by decide

theorem pad4_band1 : ∀ m, m < 1000 → (pad4 (1000 + m)).length = 4 := by decide

theorem pad4_band2 : ∀ m, m < 1000 → (pad4 (2000 + m)).length = 4 := by decide

theorem pad4_band3 : ∀ m, m < 1000 → (pad4 (3000 + m)).length = 4 := by decide

theorem pad4_band4 : ∀ m, m < 1000 → (pad4 (4000 + m)).length = 4 := by decide

theorem pad4_band5 : ∀ m, m < 1000 → (pad4 (5000 + m)).length = 4 := by decide

theorem pad4_band6 : ∀ m, m < 1000 → (pad4 (6000 + m)).length = 4 := by decide

theorem pad4_band7 : ∀ m, m < 1000 → (pad4 (7000 + m)).length = 4 := by decide

theorem pad4_band8 : ∀ m, m < 1000 → (pad4 (8000 + m)).length = 4 := by decide

theorem pad4_band9 : ∀ m, m < 1000 → (pad4 (9000 + m)).length = 4 := by decide

theorem pad4_length {n : Nat} (h : n ≤ 9999) : (pad4 n).length = 4 := by
  by_cases h1 : n < 1000
  · exact pad4_length_small n h1
  · by_cases h2 : n < 2000
    · rw [show n = 1000 + (n - 1000) by omega]
      exact pad4_band1 (n - 1000) (by omega)
    · by_cases h3 : n < 3000
      · rw [show n = 2000 + (n - 2000) by omega]
        exact pad4_band2 (n - 2000) (by omega)
      · by_cases h4 : n < 4000
        · rw [show n = 3000 + (n - 3000) by omega]
          exact pad4_band3 (n - 3000) (by omega)
        · by_cases h5 : n < 5000
          · rw [show n = 4000 + (n - 4000) by omega]
            exact pad4_band4 (n - 4000) (by omega)
          · by_cases h6 : n < 6000
            · rw [show n = 5000 + (n - 5000) by omega]
              exact pad4_band5 (n - 5000) (by omega)
            · by_cases h7 : n < 7000
              · rw [show n = 6000 + (n - 6000) by omega]
                exact pad4_band6 (n - 6000) (by omega)
              · by_cases h8 : n < 8000
                · rw [show n = 7000 + (n - 7000) by omega]
                  exact pad4_band7 (n - 7000) (by omega)
                · by_cases h9 : n < 9000
                  · rw [show n = 8000 + (n - 8000) by omega]
                    exact pad4_band8 (n - 8000) (by omega)
                  · rw [show n = 9000 + (n - 9000) by omega]
                    exact pad4_band9 (n - 9000) (by omega)

theorem strftimeCompact_length {t : DateTime} (hy : t.year ≤ 9999)
    (hmo : t.month ≤ 12) (hd : t.day ≤ 31) (hh : t.hour ≤ 23)
    (hmi : t.minute ≤ 59) (hs : t.second ≤ 59) :
    (strftimeCompact t).length = 14 := by
  simp [strftimeCompact, String.length_append, pad4_length hy,
    pad2_length (show t.month ≤ 99 by omega),
    pad2_length (show t.day ≤ 99 by omega),
    pad2_length (show t.hour ≤ 99 by omega),
    pad2_length (show t.minute ≤ 99 by omega),
    pad2_length (show t.second ≤ 99 by omega)]

theorem isDeleteInstance_eq_false {a : Action} (h : isDeletion a = false) :
    isDeleteInstance a = false := by
  have h2 : (isDeleteInstance a || isDeleteSnapshot a) = false := h
  exact (Bool.or_eq_false_iff.mp h2).1

theorem countP_deleteInstance_of_ok {args : Args} {world : Env} {t : DateTime}
    {racts : List Action} {latest : String} {snaptime : DateTime}
    {dacts : List Action}
    (hres : resolveSnapshot args world t (strftimeCompact t) =
      (racts, .ok (latest, snaptime)))
    (hdump : dumpStage args world
      (dbInstanceIdentifier args.instanceName t snaptime) world.info =
      (dacts, .ok ())) :
    (run args world t).trace.countP isDeleteInstance = 1 := by
  rw [run_ok hres hdump]
  have h1 : racts.countP isDeleteInstance = 0 :=
    List.countP_eq_zero.mpr (fun a ha => by
      simp [isDeleteInstance_eq_false
        ((resolveSnapshot_acts_benign args world t (strftimeCompact t) a
          (by rw [hres]; exact ha)).1)])
  have h2 : (provisionActs args world
      (dbInstanceIdentifier args.instanceName t snaptime) latest).countP
      isDeleteInstance = 0 :=
    List.countP_eq_zero.mpr (fun a ha => by
      simp [isDeleteInstance_eq_false (provisionActs_benign args world _ _ a ha).1])
  have h3 : dacts.countP isDeleteInstance = 0 :=
    List.countP_eq_zero.mpr (fun a ha => by
      simp [isDeleteInstance_eq_false
        (dumpStage_acts_benign args world _ _ a (by rw [hdump]; exact ha))])
  have h5 : (if args.snapshot then
      [Action.deleteDbSnapshot ("dbb-" ++ args.instanceName ++ "-" ++ strftimeCompact t)]
      else ([] : List Action)).countP isDeleteInstance = 0 := by
    split <;> simp [List.countP_cons, isDeleteInstance]
  simp [List.countP_append, h1, h2, h3, h5, List.countP_cons, isDeleteInstance]

/-- Claim C1, counterexample to the claim as stated: a run that has issued
the restore request can terminate without ever invoking
`delete_db_instance`.  With a mysql engine and the artifact file already
present, `os.open(..., O_EXCL)` on line 155 raises `FileExistsError` and the
script aborts before reaching the deletion on line 207: the trace holds the
restore request, the run ends in an error, and the count of instance
deletions is zero. -/
theorem teardown_skipped_on_dump_exception :
    (run argsSel envMysqlFileExists t0).trace.countP isRestore = 1 ∧
    (run argsSel envMysqlFileExists t0).error =
      some (.fileExistsError
        "/work/orders-db/orders-db-20261012030405-fromsnap-20240102000000.sql.xz") ∧
    (run argsSel envMysqlFileExists t0).trace.countP isDeleteInstance = 0 := by
  decide

/-- Claim C1, amended: for every run that issues the restore-from-snapshot
request and whose dump stage raises no exception — including every run in
which the dump tool or the compressor merely exits nonzero, since the script
never checks those statuses — the teardown deletion of the throwaway
instance is invoked exactly once before the run terminates.  (If the dump
stage raises, the run aborts without the deletion, as the counterexample
shows.) -/
theorem teardown_once_of_dump_no_raise (args : Args) (world : Env)
    (t : DateTime) (racts : List Action) (latest : String) (snaptime : DateTime)
    (dacts : List Action)
    (hres : resolveSnapshot args world t (strftimeCompact t) =
      (racts, .ok (latest, snaptime)))
    (hdump : dumpStage args world
      (dbInstanceIdentifier args.instanceName t snaptime) world.info =
      (dacts, .ok ())) :
    (run args world t).trace.countP isDeleteInstance = 1 :=
  countP_deleteInstance_of_ok hres hdump

/-- Witness for the amended C1 theorem at a concrete successful mysql run. -/
theorem teardown_once_of_dump_no_raise_witness :
    (run argsSel envMysql t0).trace.countP isDeleteInstance = 1 :=
  teardown_once_of_dump_no_raise argsSel envMysql t0 _ _ _ _ rfl rfl

/-- Claim C2, counterexample to the claim as stated: a mysql-path run in
which both the dump tool and the compressor exit with status 1 still
completes without any error and proceeds to teardown — the value bound to
`compress` on line 174 and the result of `mysqldump.wait()` on line 178 are
never inspected, so no failure is propagated. -/
theorem dump_exit_status_unchecked :
    envMysqlBadExits.mysqldumpExit = 1 ∧ envMysqlBadExits.xzExit = 1 ∧
    (run argsSel envMysqlBadExits t0).error = none ∧
    (run argsSel envMysqlBadExits t0).trace.countP isDeleteInstance = 1 := by
  decide

/-- Claim C2, amended: both piped processes are independently awaited, but
their exit statuses (and pg_dump's) are ignored: the entire observable
behaviour of a run — trace, termination status and final environment — is
invariant under the exit statuses the subprocesses report, so a nonzero exit
of either pipeline stage never causes the run to fail. -/
theorem run_invariant_under_exit_statuses (args : Args) (world : Env)
    (t : DateTime) (e1 e2 e3 : Int) :
    run args { world with mysqldumpExit := e1, xzExit := e2, pgExit := e3 } t =
      run args world t := rfl

/-- Claim C3: in select-latest mode, when no automated snapshot identifier
starts with `rds:{instance}`, the resolver fails — `max` on the empty
filtered list raises (the spec's `NoSnapshotFound`) — and the run aborts
having performed only the snapshot listing: no restore and no teardown. -/
theorem noSnapshotFound_of_empty_filter (args : Args) (world : Env)
    (t : DateTime) (hmode : args.snapshot = false)
    (hempty : world.snapshots.filter
      (fun s => startsWithB s ("rds:" ++ args.instanceName)) = []) :
    run args world t =
      ⟨[.describeDbSnapshots args.instanceName "automated"],
       some .valueErrorMaxEmpty, world.environ⟩ := by
  have hsel : selectLatest args.instanceName world.snapshots = none := by
    rw [selectLatest, hempty]; rfl
  exact run_res_err (by simp [resolveSnapshot, hmode, hsel])

/-- Witness for C3: a world whose only automated snapshot belongs to another
instance. -/
theorem noSnapshotFound_of_empty_filter_witness :
    run argsSel envNoMatch t0 =
      ⟨[.describeDbSnapshots "orders-db" "automated"],
       some .valueErrorMaxEmpty, [("PATH", "/bin")]⟩ :=
  noSnapshotFound_of_empty_filter argsSel envNoMatch t0 rfl (by decide)

/-- Claim C4: in select-latest mode, for every snapshot listing whose subset
of identifiers prefixed by `rds:{source}` is non-empty, the resolver returns
exactly the lexicographically maximum identifier among that subset: the
result carries the prefix, belongs to the listing, and every other matching
identifier is equal to it or lexicographically below it; non-matching
entries are ignored by the filter. -/
theorem selectLatest_picks_max (instanceName : String) (snaps : List String)
    (hne : snaps.filter (fun s => startsWithB s ("rds:" ++ instanceName)) ≠ []) :
    ∃ m, selectLatest instanceName snaps = some m ∧
      startsWithB m ("rds:" ++ instanceName) = true ∧ m ∈ snaps ∧
      ∀ x ∈ snaps, startsWithB x ("rds:" ++ instanceName) = true →
        x = m ∨ strLtB x m = true := by
  obtain ⟨m, hmax, hmem, hub⟩ := maxPy_spec hne
  have hm := List.mem_filter.mp hmem
  exact ⟨m, hmax, hm.2, hm.1,
    fun x hx hpre => hub x (List.mem_filter.mpr ⟨hx, hpre⟩)⟩

/-- Witness for C4 on a listing with mixed prefixes. -/
theorem selectLatest_picks_max_witness :
    ∃ m, selectLatest "orders-db"
        ["rds:payments-db-2024-05-05-00-00", "rds:orders-db-2024-01-01-00-00",
         "rds:orders-db-2024-01-02-00-00"] = some m ∧
      startsWithB m ("rds:" ++ "orders-db") = true ∧
      m ∈ ["rds:payments-db-2024-05-05-00-00", "rds:orders-db-2024-01-01-00-00",
         "rds:orders-db-2024-01-02-00-00"] ∧
      ∀ x ∈ ["rds:payments-db-2024-05-05-00-00", "rds:orders-db-2024-01-01-00-00",
         "rds:orders-db-2024-01-02-00-00"],
        startsWithB x ("rds:" ++ "orders-db") = true → x = m ∨ strLtB x m = true :=
  selectLatest_picks_max "orders-db"
    ["rds:payments-db-2024-05-05-00-00", "rds:orders-db-2024-01-01-00-00",
     "rds:orders-db-2024-01-02-00-00"] (by decide)

/-- Claim C5: the Identifier Deriver is a pure function (a Lean function of
its inputs) producing exactly `{source}-{runTimestamp}-fromsnap-{snapshotTimestamp}`,
with both timestamps rendered by the second-precision fixed-width scheme
`%Y%m%d%H%M%S` (14 characters for any valid datetime); in particular, for
snapshot `rds:orders-db-2024-01-02-00-00` of source `orders-db` the parsed
snapshot time renders as `20240102000000` and the derived identifier is
`orders-db-{runTS}-fromsnap-20240102000000`. -/
theorem dbInstanceIdentifier_spec :
    (∀ (s : String) (t1 t2 : DateTime), dbInstanceIdentifier s t1 t2 =
      s ++ "-" ++ strftimeCompact t1 ++ "-fromsnap-" ++ strftimeCompact t2) ∧
    (∀ t : DateTime, t.year ≤ 9999 → t.month ≤ 12 → t.day ≤ 31 → t.hour ≤ 23 →
      t.minute ≤ 59 → t.second ≤ 59 → (strftimeCompact t).length = 14) ∧
    parseSnaptime "orders-db" "rds:orders-db-2024-01-02-00-00" =
      some ⟨2024, 1, 2, 0, 0, 0⟩ ∧
    strftimeCompact ⟨2024, 1, 2, 0, 0, 0⟩ = "20240102000000" ∧
    (∀ t1 : DateTime, dbInstanceIdentifier "orders-db" t1 ⟨2024, 1, 2, 0, 0, 0⟩ =
      "orders-db-" ++ strftimeCompact t1 ++ "-fromsnap-20240102000000") := by
  refine ⟨fun s t1 t2 => rfl,
    fun t hy hmo hd hh hmi hs => strftimeCompact_length hy hmo hd hh hmi hs,
    by decide, by decide, ?_⟩
  intro t1
  show "orders-db" ++ "-" ++ strftimeCompact t1 ++ "-fromsnap-" ++
      strftimeCompact ⟨2024, 1, 2, 0, 0, 0⟩ = _
  rw [show ("orders-db" ++ "-" : String) = "orders-db-" from by decide]
  rw [show strftimeCompact ⟨2024, 1, 2, 0, 0, 0⟩ = "20240102000000" from by decide]
  rw [String.append_assoc ("orders-db-" ++ strftimeCompact t1) "-fromsnap-"
    "20240102000000"]
  rw [show ("-fromsnap-" ++ "20240102000000" : String) = "-fromsnap-20240102000000"
    from by decide]

/-- Witness for C5 at a concrete run timestamp. -/
theorem dbInstanceIdentifier_spec_witness :
    (strftimeCompact ⟨2026, 10, 12, 3, 4, 5⟩).length = 14 ∧
    dbInstanceIdentifier "orders-db" ⟨2026, 10, 12, 3, 4, 5⟩ ⟨2024, 1, 2, 0, 0, 0⟩ =
      "orders-db-" ++ strftimeCompact ⟨2026, 10, 12, 3, 4, 5⟩ ++
        "-fromsnap-20240102000000" :=
  ⟨dbInstanceIdentifier_spec.2.1 ⟨2026, 10, 12, 3, 4, 5⟩ (by decide) (by decide)
      (by decide) (by decide) (by decide) (by decide),
   dbInstanceIdentifier_spec.2.2.2.2 ⟨2026, 10, 12, 3, 4, 5⟩⟩

/-- Claim C6: on both engine paths the artifact file is opened with
`O_WRONLY|O_CREAT|O_EXCL` (the exclusive-create bit is set) and mode
`S_IRUSR|S_IWUSR = 0600`; when a file already exists at the derived path the
dump invocation performs no action and fails with `FileExistsError` (the
spec's `ArtifactAlreadyExists`) instead of overwriting it. -/
theorem dumpStage_exclusive_create (args : Args) (world : Env) (dbi : String)
    (info : InstanceInfo) (ext : String)
    (heng : info.engine = "mysql" ∧ ext = ".sql.xz" ∨
            info.engine = "postgres" ∧ ext = ".dump") :
    (world.fileExists (world.cwd ++ "/" ++ args.instanceName ++ "/" ++ dbi ++ ext)
        = true →
      dumpStage args world dbi info =
        ([], .error (.fileExistsError
          (world.cwd ++ "/" ++ args.instanceName ++ "/" ++ dbi ++ ext)))) ∧
    (world.fileExists (world.cwd ++ "/" ++ args.instanceName ++ "/" ++ dbi ++ ext)
        = false →
      ∃ rest, (dumpStage args world dbi info).1 =
        .openFile (world.cwd ++ "/" ++ args.instanceName ++ "/" ++ dbi ++ ext)
          (O_WRONLY ||| O_CREAT ||| O_EXCL) (S_IRUSR ||| S_IWUSR) :: rest) ∧
    O_EXCL &&& (O_WRONLY ||| O_CREAT ||| O_EXCL) = O_EXCL ∧
    S_IRUSR ||| S_IWUSR = 0o600 := by
  refine ⟨?_, ?_, by decide, by decide⟩
  · intro hfile
    rcases heng with ⟨he, rfl⟩ | ⟨he, rfl⟩ <;> simp [dumpStage, he, hfile]
  · intro hfile
    rcases heng with ⟨he, rfl⟩ | ⟨he, rfl⟩
    · exact ⟨[.popenMysqldump
          ["mysqldump",
           "--defaults-extra-file=" ++
             (world.cwd ++ "/." ++ args.instanceName ++ ".my.cnf"),
           "--single-transaction", "--databases", args.database, "-h",
           info.address, "-u", info.masterUsername, "-P", toString info.port],
         .callXz ["xz", "--stdout", "-"]
          (world.cwd ++ "/" ++ args.instanceName ++ "/" ++ dbi ++ ".sql.xz"),
         .waitMysqldump], by simp [dumpStage, he, hfile]⟩
    · exact ⟨[.callPgDump
          ["pg_dump", "-Fc", args.database, "-h", info.address, "-p",
           toString info.port, "-U", info.masterUsername, "-w", "-f",
           world.cwd ++ "/" ++ args.instanceName ++ "/" ++ dbi ++ ".dump"]
          (envUpsert world.environ "PGPASSFILE"
            (world.cwd ++ "/." ++ args.instanceName ++ ".pgpass"))],
        by simp [dumpStage, he, hfile]⟩

/-- Witness for C6: the mysql path refuses to overwrite an existing artifact. -/
theorem dumpStage_exclusive_create_witness :
    dumpStage argsSel envMysqlFileExists "db1" ⟨"mysql", "h.example", 3306, "admin"⟩ =
      ([], .error (.fileExistsError "/work/orders-db/db1.sql.xz")) :=
  (dumpStage_exclusive_create argsSel envMysqlFileExists "db1"
    ⟨"mysql", "h.example", 3306, "admin"⟩ ".sql.xz" (Or.inl ⟨rfl, rfl⟩)).1 rfl

/-- Claim C7: on the postgres path, `PGPASSFILE` is set only on the copy of
the environment handed to the pg_dump subprocess: the trace records the
pg_dump call with the extended environment (in which `PGPASSFILE` resolves to
the credential file), while the parent process's own environment at the end
of the run equals the initial one. -/
theorem pgpassfile_scoped_to_subprocess (args : Args) (world : Env)
    (t : DateTime) (racts : List Action) (latest : String) (snaptime : DateTime)
    (hres : resolveSnapshot args world t (strftimeCompact t) =
      (racts, .ok (latest, snaptime)))
    (heng : world.info.engine = "postgres")
    (hfile : world.fileExists (world.cwd ++ "/" ++ args.instanceName ++ "/" ++
      dbInstanceIdentifier args.instanceName t snaptime ++ ".dump") = false) :
    (run args world t).environ = world.environ ∧
    Action.callPgDump
        ["pg_dump", "-Fc", args.database, "-h", world.info.address, "-p",
         toString world.info.port, "-U", world.info.masterUsername, "-w", "-f",
         world.cwd ++ "/" ++ args.instanceName ++ "/" ++
           dbInstanceIdentifier args.instanceName t snaptime ++ ".dump"]
        (envUpsert world.environ "PGPASSFILE"
          (world.cwd ++ "/." ++ args.instanceName ++ ".pgpass"))
      ∈ (run args world t).trace ∧
    envLookup (envUpsert world.environ "PGPASSFILE"
        (world.cwd ++ "/." ++ args.instanceName ++ ".pgpass")) "PGPASSFILE" =
      some (world.cwd ++ "/." ++ args.instanceName ++ ".pgpass") := by
  have hdump : dumpStage args world
      (dbInstanceIdentifier args.instanceName t snaptime) world.info =
      ([.openFile (world.cwd ++ "/" ++ args.instanceName ++ "/" ++
          dbInstanceIdentifier args.instanceName t snaptime ++ ".dump")
          (O_WRONLY ||| O_CREAT ||| O_EXCL) (S_IRUSR ||| S_IWUSR),
        .callPgDump
          ["pg_dump", "-Fc", args.database, "-h", world.info.address, "-p",
           toString world.info.port, "-U", world.info.masterUsername, "-w", "-f",
           world.cwd ++ "/" ++ args.instanceName ++ "/" ++
             dbInstanceIdentifier args.instanceName t snaptime ++ ".dump"]
          (envUpsert world.environ "PGPASSFILE"
            (world.cwd ++ "/." ++ args.instanceName ++ ".pgpass"))],
       .ok ()) := by
    simp [dumpStage, heng, hfile]
  rw [run_ok hres hdump]
  exact ⟨rfl, by simp, envLookup_envUpsert _ _ _⟩

/-- Witness for C7 at a concrete postgres run. -/
theorem pgpassfile_scoped_to_subprocess_witness :
    (run argsSel envPg t0).environ = envPg.environ ∧
    Action.callPgDump
        ["pg_dump", "-Fc", argsSel.database, "-h", envPg.info.address, "-p",
         toString envPg.info.port, "-U", envPg.info.masterUsername, "-w", "-f",
         envPg.cwd ++ "/" ++ argsSel.instanceName ++ "/" ++
           dbInstanceIdentifier argsSel.instanceName t0 ⟨2024, 1, 2, 0, 0, 0⟩ ++ ".dump"]
        (envUpsert envPg.environ "PGPASSFILE"
          (envPg.cwd ++ "/." ++ argsSel.instanceName ++ ".pgpass"))
      ∈ (run argsSel envPg t0).trace ∧
    envLookup (envUpsert envPg.environ "PGPASSFILE"
        (envPg.cwd ++ "/." ++ argsSel.instanceName ++ ".pgpass")) "PGPASSFILE" =
      some (envPg.cwd ++ "/." ++ argsSel.instanceName ++ ".pgpass") :=
  pgpassfile_scoped_to_subprocess argsSel envPg t0 _ _ _ rfl rfl rfl

/-- Claim C8: every run that terminates without error deletes the restored
instance with the skip-final-snapshot option, performs no resource deletion
before that point, and afterwards deletes the run-created snapshot exactly
when the run was in create-fresh mode (never in select-latest mode). -/
theorem teardown_contract (args : Args) (world : Env) (t : DateTime)
    (hok : (run args world t).error = none) :
    ∃ pre dbi,
      (run args world t).trace =
        pre ++ [Action.deleteDbInstance dbi true] ++
          (if args.snapshot then
            [Action.deleteDbSnapshot
              ("dbb-" ++ args.instanceName ++ "-" ++ strftimeCompact t)]
           else []) ∧
      ∀ a ∈ pre, isDeletion a = false := by
  rcases hres : resolveSnapshot args world t (strftimeCompact t) with ⟨racts, res⟩
  cases res with
  | error e =>
    rw [run_res_err hres] at hok
    simp at hok
  | ok p =>
    obtain ⟨latest, snaptime⟩ := p
    rcases hdump : dumpStage args world
      (dbInstanceIdentifier args.instanceName t snaptime) world.info with ⟨dacts, dres⟩
    cases dres with
    | error e =>
      rw [run_dump_err hres hdump] at hok
      simp at hok
    | ok u =>
      obtain ⟨⟩ := u
      refine ⟨racts ++ provisionActs args world
          (dbInstanceIdentifier args.instanceName t snaptime) latest ++ dacts,
        dbInstanceIdentifier args.instanceName t snaptime, ?_, ?_⟩
      · rw [run_ok hres hdump]
      · intro a ha
        rcases List.mem_append.mp ha with ha1 | ha2
        · rcases List.mem_append.mp ha1 with ha3 | ha4
          · exact (resolveSnapshot_acts_benign args world t (strftimeCompact t) a
              (by rw [hres]; exact ha3)).1
          · exact (provisionActs_benign args world _ _ a ha4).1
        · exact dumpStage_acts_benign args world _ _ a (by rw [hdump]; exact ha2)

/-- Witness for C8 at a concrete create-fresh run (both deletions occur). -/
theorem teardown_contract_witness :
    ∃ pre dbi,
      (run argsSnap envMysql t0).trace =
        pre ++ [Action.deleteDbInstance dbi true] ++
          (if argsSnap.snapshot then
            [Action.deleteDbSnapshot
              ("dbb-" ++ argsSnap.instanceName ++ "-" ++ strftimeCompact t0)]
           else []) ∧
      ∀ a ∈ pre, isDeletion a = false :=
  teardown_contract argsSnap envMysql t0 (by decide)

/-- Claim C9: for every run whose restored instance reports engine `mysql`
(and whose dump stage can open the artifact), the trace contains, in order:
the exclusive open of `{cwd}/{source}/{restoredIdentifier}.sql.xz`, the
mysqldump invocation whose argument vector includes `--single-transaction`,
the `xz --stdout -` call writing to that same file, and the wait on the dump
process. -/
theorem mysql_dump_pipeline (args : Args) (world : Env) (t : DateTime)
    (racts : List Action) (latest : String) (snaptime : DateTime)
    (hres : resolveSnapshot args world t (strftimeCompact t) =
      (racts, .ok (latest, snaptime)))
    (heng : world.info.engine = "mysql")
    (hfile : world.fileExists (world.cwd ++ "/" ++ args.instanceName ++ "/" ++
      dbInstanceIdentifier args.instanceName t snaptime ++ ".sql.xz") = false) :
    ∃ pre post,
      (run args world t).trace = pre ++
        [.openFile (world.cwd ++ "/" ++ args.instanceName ++ "/" ++
            dbInstanceIdentifier args.instanceName t snaptime ++ ".sql.xz")
          (O_WRONLY ||| O_CREAT ||| O_EXCL) (S_IRUSR ||| S_IWUSR),
         .popenMysqldump
          ["mysqldump",
           "--defaults-extra-file=" ++
             (world.cwd ++ "/." ++ args.instanceName ++ ".my.cnf"),
           "--single-transaction", "--databases", args.database, "-h",
           world.info.address, "-u", world.info.masterUsername, "-P",
           toString world.info.port],
         .callXz ["xz", "--stdout", "-"]
          (world.cwd ++ "/" ++ args.instanceName ++ "/" ++
            dbInstanceIdentifier args.instanceName t snaptime ++ ".sql.xz"),
         .waitMysqldump] ++ post ∧
      "--single-transaction" ∈
        ["mysqldump",
         "--defaults-extra-file=" ++
           (world.cwd ++ "/." ++ args.instanceName ++ ".my.cnf"),
         "--single-transaction", "--databases", args.database, "-h",
         world.info.address, "-u", world.info.masterUsername, "-P",
         toString world.info.port] := by
  have hdump : dumpStage args world
      (dbInstanceIdentifier args.instanceName t snaptime) world.info =
      ([.openFile (world.cwd ++ "/" ++ args.instanceName ++ "/" ++
          dbInstanceIdentifier args.instanceName t snaptime ++ ".sql.xz")
          (O_WRONLY ||| O_CREAT ||| O_EXCL) (S_IRUSR ||| S_IWUSR),
        .popenMysqldump
          ["mysqldump",
           "--defaults-extra-file=" ++
             (world.cwd ++ "/." ++ args.instanceName ++ ".my.cnf"),
           "--single-transaction", "--databases", args.database, "-h",
           world.info.address, "-u", world.info.masterUsername, "-P",
           toString world.info.port],
        .callXz ["xz", "--stdout", "-"]
          (world.cwd ++ "/" ++ args.instanceName ++ "/" ++
            dbInstanceIdentifier args.instanceName t snaptime ++ ".sql.xz"),
        .waitMysqldump], .ok ()) := by
    simp [dumpStage, heng, hfile]
  rw [run_ok hres hdump]
  refine ⟨racts ++ provisionActs args world
      (dbInstanceIdentifier args.instanceName t snaptime) latest,
    [.deleteDbInstance (dbInstanceIdentifier args.instanceName t snaptime) true] ++
      (if args.snapshot then
        [Action.deleteDbSnapshot
          ("dbb-" ++ args.instanceName ++ "-" ++ strftimeCompact t)]
       else []), ?_, ?_⟩
  · simp [List.append_assoc]
  · exact List.mem_cons_of_mem _ (List.mem_cons_of_mem _ (List.mem_cons_self _ _))

/-- Witness for C9 at a concrete mysql run. -/
theorem mysql_dump_pipeline_witness :
    ∃ pre post,
      (run argsSel envMysql t0).trace = pre ++
        [.openFile (envMysql.cwd ++ "/" ++ argsSel.instanceName ++ "/" ++
            dbInstanceIdentifier argsSel.instanceName t0 ⟨2024, 1, 2, 0, 0, 0⟩
            ++ ".sql.xz")
          (O_WRONLY ||| O_CREAT ||| O_EXCL) (S_IRUSR ||| S_IWUSR),
         .popenMysqldump
          ["mysqldump",
           "--defaults-extra-file=" ++
             (envMysql.cwd ++ "/." ++ argsSel.instanceName ++ ".my.cnf"),
           "--single-transaction", "--databases", argsSel.database, "-h",
           envMysql.info.address, "-u", envMysql.info.masterUsername, "-P",
           toString envMysql.info.port],
         .callXz ["xz", "--stdout", "-"]
          (envMysql.cwd ++ "/" ++ argsSel.instanceName ++ "/" ++
            dbInstanceIdentifier argsSel.instanceName t0 ⟨2024, 1, 2, 0, 0, 0⟩
            ++ ".sql.xz"),
         .waitMysqldump] ++ post ∧
      "--single-transaction" ∈
        ["mysqldump",
         "--defaults-extra-file=" ++
           (envMysql.cwd ++ "/." ++ argsSel.instanceName ++ ".my.cnf"),
         "--single-transaction", "--databases", argsSel.database, "-h",
         envMysql.info.address, "-u", envMysql.info.masterUsername, "-P",
         toString envMysql.info.port] :=
  mysql_dump_pipeline argsSel envMysql t0 _ _ _ rfl rfl rfl

/-- Claim C10: for every run whose restored instance reports an engine other
than exactly `mysql` or `postgres` (for example `mariadb`), the dump stage is
silently skipped — the `if`/`elif` on lines 152 and 179 has no `else` — so
the trace contains no file open and no dump subprocess, the run raises no
error, the instance is still deleted exactly once, and the run completes as
if successful. -/
theorem unknown_engine_skips_dump (args : Args) (world : Env) (t : DateTime)
    (racts : List Action) (latest : String) (snaptime : DateTime)
    (hres : resolveSnapshot args world t (strftimeCompact t) =
      (racts, .ok (latest, snaptime)))
    (hm : world.info.engine ≠ "mysql") (hp : world.info.engine ≠ "postgres") :
    (run args world t).error = none ∧
    (∀ a ∈ (run args world t).trace, isDumpAction a = false) ∧
    (run args world t).trace.countP isDeleteInstance = 1 := by
  have hdump : dumpStage args world
      (dbInstanceIdentifier args.instanceName t snaptime) world.info =
      ([], .ok ()) := by
    simp [dumpStage, hm, hp]
  refine ⟨?_, ?_, countP_deleteInstance_of_ok hres hdump⟩
  · rw [run_ok hres hdump]
  · intro a ha
    rw [run_ok hres hdump] at ha
    simp only [List.append_nil] at ha
    rcases List.mem_append.mp ha with ha1 | ha2
    · rcases List.mem_append.mp ha1 with ha3 | ha4
      · rcases List.mem_append.mp ha3 with ha5 | ha6
        · exact (resolveSnapshot_acts_benign args world t (strftimeCompact t) a
            (by rw [hres]; exact ha5)).2
        · exact (provisionActs_benign args world _ _ a ha6).2
      · rcases List.mem_cons.mp ha4 with rfl | ha7
        · rfl
        · simp at ha7
    · split at ha2
      · rcases List.mem_cons.mp ha2 with rfl | ha8
        · rfl
        · simp at ha8
      · simp at ha2

/-- Witness for C10 with engine `mariadb`. -/
theorem unknown_engine_skips_dump_witness :
    (run argsSel envMaria t0).error = none ∧
    (∀ a ∈ (run argsSel envMaria t0).trace, isDumpAction a = false) ∧
    (run argsSel envMaria t0).trace.countP isDeleteInstance = 1 :=
  unknown_engine_skips_dump argsSel envMaria t0 _ _ _ rfl
    (by decide) (by decide)

end DbBackup
